import Mathlib

/-!
Shallow embedding of the access-control core of the repository
(`src/models/access_control.py` and `src/services/access_control_manager.py`,
plus the tool wrapper in `src/mcp_server/tools/access_control_tools.py`).

Modelling conventions:
* timestamps are integers (whole seconds); `datetime.utcnow()` becomes an
  explicit `now : ℤ` argument threaded through every operation.  Every
  duration the source adds to a timestamp is a whole number of seconds
  (`timedelta(days=30)`, `timedelta(seconds=duration_seconds)`,
  `timedelta(hours=duration_hours)` with `duration_hours * 3600` integral at
  every call site), so second granularity is exact;
* Python `float` values (prices, scores) are rationals; `round(x, 2)` is
  modelled as decimal rounding-half-to-even on ℚ (Python's tie rule);
* the manager's in-memory `Dict` stores become functions `String → Option α`;
* `secrets.token_urlsafe` is modelled by passing the freshly generated
  identifier as an explicit argument (`fresh…`), since only its value, not its
  randomness, matters to the control flow;
* fallible operations return the same `(payload, message)` tuples as the
  source, paired with the post-state.
-/

namespace AccessControl

/-- `SubscriptionTier` enum from `models/access_control.py`. -/
inductive SubscriptionTier where
  | free
  | premium
  | enterprise
deriving DecidableEq, Repr

/-- String value of a `SubscriptionTier` (the Python enum's `.value`). -/
def SubscriptionTier.value : SubscriptionTier → String
  | .free => "free"
  | .premium => "premium"
  | .enterprise => "enterprise"

/-- `AccessLevel` enum from `models/access_control.py`. -/
inductive AccessLevel where
  | public
  | registered
  | premium
  | enterprise
  | restricted
deriving DecidableEq, Repr

/-- String value of an `AccessLevel` (the Python enum's `.value`). -/
def AccessLevel.value : AccessLevel → String
  | .public => "public"
  | .registered => "registered"
  | .premium => "premium"
  | .enterprise => "enterprise"
  | .restricted => "restricted"

/-- `ContentValueTier` enum from `models/access_control.py`. -/
inductive ContentValueTier where
  | basic
  | standard
  | premium
  | exclusive
deriving DecidableEq, Repr

/-- Subscription status literal `{"active","cancelled","expired","suspended"}`. -/
inductive SubStatus where
  | active
  | cancelled
  | expired
  | suspended
deriving DecidableEq, Repr

/-- `SubscriptionPlan` model (pydantic fields not affecting control flow kept). -/
structure SubscriptionPlan where
  tier : SubscriptionTier
  name : String
  description : String
  price_monthly : ℚ
  price_annual : Option ℚ := none
  allowed_access_levels : List AccessLevel := []
  content_limit : Option ℕ := none
  features : List String := []
  priority_support : Bool := false
  api_access : Bool := false
  is_active : Bool := true
deriving DecidableEq, Repr

/-- `UserSubscription` model. -/
structure UserSubscription where
  user_id : String
  subscription_tier : SubscriptionTier
  plan_id : String
  status : SubStatus := .active
  start_date : ℤ
  end_date : Option ℤ := none
  renewal_date : Option ℤ := none
  cancelled_at : Option ℤ := none
  content_accessed_count : ℕ := 0
  last_access_date : Option ℤ := none
  payment_method : Option String := none
  auto_renew : Bool := true
  created_at : ℤ
  updated_at : ℤ
deriving DecidableEq, Repr

/-- `UserSubscription.is_active`: status is active and the end date, when set,
has not passed (`datetime.utcnow() > end_date` ends validity). -/
def UserSubscription.is_active (s : UserSubscription) (now : ℤ) : Bool :=
  if s.status ≠ .active then false
  else
    match s.end_date with
    | some e => if now > e then false else true
    | none => true

/-- The `tier_access_map` literal inside `UserSubscription.has_access_to_level`. -/
def tier_access_map : SubscriptionTier → List AccessLevel
  | .free => [.public]
  | .premium => [.public, .registered, .premium]
  | .enterprise => [.public, .registered, .premium, .enterprise]

/-- `UserSubscription.has_access_to_level`: membership in the fixed tier map. -/
def UserSubscription.has_access_to_level (s : UserSubscription) (l : AccessLevel) : Bool :=
  decide (l ∈ tier_access_map s.subscription_tier)

/-- `UserSubscription.can_access_more_content`: unlimited when the plan has no
limit, otherwise `content_accessed_count < plan.content_limit`. -/
def UserSubscription.can_access_more_content (s : UserSubscription)
    (plan : SubscriptionPlan) : Bool :=
  match plan.content_limit with
  | none => true
  | some lim => s.content_accessed_count < lim

/-- `AccessToken` model. -/
structure AccessToken where
  token : String
  user_id : String
  content_id : String
  access_level : AccessLevel
  granted_at : ℤ
  expires_at : ℤ
  used : Bool := false
  used_at : Option ℤ := none
  usage_count : ℕ := 0
  max_uses : Option ℕ := none
  payment_token : Option String := none
  amount_paid : Option ℚ := none
  created_at : ℤ
deriving DecidableEq, Repr

/-- `AccessToken.is_valid`: not past `expires_at` (strict `>` invalidates) and
usage below `max_uses` when a cap is set. -/
def AccessToken.is_valid (t : AccessToken) (now : ℤ) : Bool :=
  if now > t.expires_at then false
  else
    match t.max_uses with
    | some m => if t.usage_count ≥ m then false else true
    | none => true

/-- `AccessToken.mark_used`: set `used`, stamp `used_at`, bump `usage_count`. -/
def AccessToken.mark_used (t : AccessToken) (now : ℤ) : AccessToken :=
  { t with used := true, used_at := some now, usage_count := t.usage_count + 1 }

/-- `ContentValueAssessment` model. -/
structure ContentValueAssessment where
  content_id : String
  value_tier : ContentValueTier
  quality_score : ℚ
  demand_score : ℚ
  exclusivity_score : ℚ
  freshness_days : ℕ
  word_count : ℕ
  has_multimedia : Bool := false
  is_investigative : Bool := false
  is_breaking_news : Bool := false
  predicted_views : ℕ := 0
  predicted_shares : ℕ := 0
  predicted_engagement_rate : ℚ := 0
  recommended_access_level : AccessLevel
  recommended_price : Option ℚ := none
  assessment_version : String := "1.0"
deriving DecidableEq, Repr

/-- Decimal rounding half-to-even on ℚ (Python's `round` tie rule, applied at
the exact rational value). -/
def round_half_even (q : ℚ) : ℤ :=
  let f := ⌊q⌋
  let r := q - f
  if r < 1/2 then f
  else if r > 1/2 then f + 1
  else if f % 2 = 0 then f else f + 1

/-- `round(x, 2)` on ℚ. -/
def round2 (q : ℚ) : ℚ :=
  (round_half_even (q * 100) : ℚ) / 100

/-- `ContentValueAssessment.calculate_overall_value_score`: weighted sum of
quality (0.30), demand (0.25), exclusivity (0.20), a freshness score decaying
over 30 days (0.15) and engagement-rate × 10 (0.10), rounded to 2 decimals. -/
def ContentValueAssessment.calculate_overall_value_score
    (a : ContentValueAssessment) : ℚ :=
  let freshness_score := max 0 (10 - (a.freshness_days : ℚ) / 3)
  let engagement_score := a.predicted_engagement_rate * 10
  round2 (a.quality_score * (30/100)
    + a.demand_score * (25/100)
    + a.exclusivity_score * (20/100)
    + freshness_score * (15/100)
    + engagement_score * (10/100))

/-- `AccessVerificationRequest` model. -/
structure AccessVerificationRequest where
  user_id : String
  content_id : String
  requested_access_level : AccessLevel
  access_token : Option String := none
  subscription_id : Option String := none
  requesting_interface : String
  request_timestamp : ℤ
deriving DecidableEq, Repr

/-- `AccessVerificationResponse` model. -/
structure AccessVerificationResponse where
  access_granted : Bool
  access_level : AccessLevel
  denial_reason : Option String := none
  upgrade_required : Bool := false
  access_token : Option String := none
  expires_at : Option ℤ := none
  current_subscription_tier : Option SubscriptionTier := none
  required_subscription_tier : Option SubscriptionTier := none
  pay_per_view_available : Bool := false
  pay_per_view_price : Option ℚ := none
deriving DecidableEq, Repr

/-- `TemporaryAccessGrant` model. -/
structure TemporaryAccessGrant where
  grant_id : String
  user_id : String
  content_id : String
  access_level : AccessLevel
  duration_seconds : ℕ
  payment_token : String
  amount_paid : ℚ
  payment_verified : Bool := false
  granted_at : ℤ
  expires_at : ℤ
  accessed : Bool := false
  access_count : ℕ := 0
deriving DecidableEq, Repr

/-- `TemporaryAccessGrant.create_grant`: stamps `granted_at := now` and
`expires_at := now + duration_seconds`; `payment_verified` keeps its default
`false`.  The random `grant_id` is passed in explicitly. -/
def TemporaryAccessGrant.create_grant (grant_id user_id content_id : String)
    (access_level : AccessLevel) (duration_seconds : ℕ)
    (payment_token : String) (amount_paid : ℚ) (now : ℤ) : TemporaryAccessGrant :=
  { grant_id := grant_id
    user_id := user_id
    content_id := content_id
    access_level := access_level
    duration_seconds := duration_seconds
    payment_token := payment_token
    amount_paid := amount_paid
    granted_at := now
    expires_at := now + (duration_seconds : ℤ) }

/-- `TemporaryAccessGrant.is_valid`: strictly before expiry and payment
verified. -/
def TemporaryAccessGrant.is_valid (g : TemporaryAccessGrant) (now : ℤ) : Bool :=
  decide (now < g.expires_at) && g.payment_verified

/-- The in-memory stores of `AccessControlManager` (`Dict` fields of the
Python class, as partial maps). -/
structure MgrState where
  subscription_plans : String → Option SubscriptionPlan
  user_subscriptions : String → Option UserSubscription
  access_tokens : String → Option AccessToken
  content_assessments : String → Option ContentValueAssessment
  temporary_grants : String → Option TemporaryAccessGrant

/-- Point update of a string-keyed store (Python `d[k] = v`). -/
def store_put (m : String → Option α) (k : String) (v : α) : String → Option α :=
  fun x => if x = k then some v else m x

/-- The "Free" plan seeded by `_initialize_subscription_plans`. -/
def plan_free : SubscriptionPlan :=
  { tier := .free
    name := "Free"
    description := "Access to public content"
    price_monthly := 0
    price_annual := some 0
    allowed_access_levels := [.public]
    content_limit := some 10
    features := ["Access to public articles",
      "Limited to 10 articles per month",
      "Basic content only"]
    priority_support := false
    api_access := false }

/-- The "Premium" plan seeded by `_initialize_subscription_plans`. -/
def plan_premium : SubscriptionPlan :=
  { tier := .premium
    name := "Premium"
    description := "Full access to premium content"
    price_monthly := 999/100
    price_annual := some (9999/100)
    allowed_access_levels := [.public, .registered, .premium]
    content_limit := none
    features := ["Unlimited access to all premium content",
      "Ad-free experience",
      "Early access to new content",
      "Newsletter subscription",
      "Mobile app access"]
    priority_support := false
    api_access := false }

/-- The "Enterprise" plan seeded by `_initialize_subscription_plans`. -/
def plan_enterprise : SubscriptionPlan :=
  { tier := .enterprise
    name := "Enterprise"
    description := "Enterprise-grade access with API"
    price_monthly := 9999/100
    price_annual := some (99999/100)
    allowed_access_levels := [.public, .registered, .premium, .enterprise]
    content_limit := none
    features := ["All Premium features",
      "API access for integration",
      "Priority customer support",
      "Custom content feeds",
      "Analytics dashboard",
      "White-label options",
      "Dedicated account manager"]
    priority_support := true
    api_access := true }

/-- The plan catalog after `_initialize_subscription_plans`, keyed by
`"plan_" + tier.value`. -/
def initial_subscription_plans : String → Option SubscriptionPlan :=
  fun pid =>
    if pid = "plan_free" then some plan_free
    else if pid = "plan_premium" then some plan_premium
    else if pid = "plan_enterprise" then some plan_enterprise
    else none

/-- Manager state right after `__init__`: seeded plan catalog, all other
stores empty. -/
def mgr_init : MgrState :=
  { subscription_plans := initial_subscription_plans
    user_subscriptions := fun _ => none
    access_tokens := fun _ => none
    content_assessments := fun _ => none
    temporary_grants := fun _ => none }

/-- One day in seconds (`timedelta(days=1)`). -/
def day_seconds : ℤ := 86400

/-- `AccessControlManager.create_subscription`.  Plan lookup first, then the
active-subscription guard; on success a fresh 30-day active subscription with
`auto_renew = True` replaces the user's entry. -/
def create_subscription (st : MgrState) (user_id plan_id : String)
    (payment_method : Option String) (now : ℤ) :
    Option UserSubscription × String × MgrState :=
  match st.subscription_plans plan_id with
  | none => (none, "Subscription plan not found: " ++ plan_id, st)
  | some plan =>
    let make : Option UserSubscription × String × MgrState :=
      let subscription : UserSubscription :=
        { user_id := user_id
          subscription_tier := plan.tier
          plan_id := plan_id
          status := .active
          start_date := now
          end_date := some (now + 30 * day_seconds)
          renewal_date := some (now + 30 * day_seconds)
          payment_method := payment_method
          auto_renew := true
          created_at := now
          updated_at := now }
      (some subscription, "Successfully subscribed to " ++ plan.name,
        { st with user_subscriptions := store_put st.user_subscriptions user_id subscription })
    match st.user_subscriptions user_id with
    | some existing_sub =>
      if existing_sub.is_active now then
        (none, "User already has an active subscription: "
          ++ existing_sub.subscription_tier.value, st)
      else make
    | none => make

/-- `AccessControlManager.cancel_subscription`. -/
def cancel_subscription (st : MgrState) (user_id : String) (now : ℤ) :
    Bool × String × MgrState :=
  match st.user_subscriptions user_id with
  | none => (false, "No subscription found for user", st)
  | some subscription =>
    if subscription.status = .cancelled then
      (false, "Subscription is already cancelled", st)
    else
      let s' := { subscription with
        status := .cancelled
        cancelled_at := some now
        auto_renew := false
        updated_at := now }
      (true, "Subscription cancelled successfully",
        { st with user_subscriptions := store_put st.user_subscriptions user_id s' })

/-- `AccessControlManager._get_required_tier_for_level` (the Python map is
total over the enum, so the `.get` default is unreachable). -/
def get_required_tier_for_level : AccessLevel → SubscriptionTier
  | .public => .free
  | .registered => .premium
  | .premium => .premium
  | .enterprise => .enterprise
  | .restricted => .enterprise

/-- `AccessControlManager._calculate_pay_per_view_price`: the cached
recommendation is used only when it is truthy (present and non-zero),
otherwise the 1.99 default applies. -/
def calculate_pay_per_view_price (st : MgrState) (content_id : String) : ℚ :=
  match st.content_assessments content_id with
  | some assessment =>
    match assessment.recommended_price with
    | some p => if p ≠ 0 then p else 199/100
    | none => 199/100
  | none => 199/100

/-- `AccessControlManager._generate_access_token`: builds a token expiring
`duration_hours` hours from now and stores it keyed by its own (random,
here explicitly supplied) string. -/
def generate_access_token (st : MgrState) (user_id content_id : String)
    (access_level : AccessLevel) (duration_hours : ℚ)
    (payment_token : Option String) (amount_paid : Option ℚ)
    (now : ℤ) (fresh_token : String) : AccessToken × MgrState :=
  let tok : AccessToken :=
    { token := fresh_token
      user_id := user_id
      content_id := content_id
      access_level := access_level
      granted_at := now
      expires_at := now + ⌊duration_hours * 3600⌋
      payment_token := payment_token
      amount_paid := amount_paid
      created_at := now }
  (tok, { st with access_tokens := store_put st.access_tokens fresh_token tok })

/-- Steps 2–6 of `verify_content_access` (everything after the token fast
path): resolve or materialize the subscription, run the active, tier and
content-limit checks, and on success count the access and issue a 24-hour
token. -/
def verify_subscription_path (st : MgrState) (request : AccessVerificationRequest)
    (now : ℤ) (fresh_token : String) : AccessVerificationResponse × MgrState :=
  let resolved : UserSubscription × MgrState :=
    match st.user_subscriptions request.user_id with
    | some s => (s, st)
    | none =>
      let s : UserSubscription :=
        { user_id := request.user_id
          subscription_tier := .free
          plan_id := "plan_free"
          status := .active
          start_date := now
          created_at := now
          updated_at := now }
      (s, { st with user_subscriptions := store_put st.user_subscriptions request.user_id s })
  let subscription := resolved.1
  let st := resolved.2
  if ! subscription.is_active now then
    ({ access_granted := false
       access_level := .public
       denial_reason := some "Subscription is not active"
       upgrade_required := true
       current_subscription_tier := some subscription.subscription_tier
       required_subscription_tier := some (get_required_tier_for_level request.requested_access_level)
       pay_per_view_available := true
       pay_per_view_price := some (calculate_pay_per_view_price st request.content_id) }, st)
  else if ! subscription.has_access_to_level request.requested_access_level then
    ({ access_granted := false
       access_level := .public
       denial_reason := some ("Subscription tier " ++ subscription.subscription_tier.value
         ++ " does not have access to " ++ request.requested_access_level.value ++ " content")
       upgrade_required := true
       current_subscription_tier := some subscription.subscription_tier
       required_subscription_tier := some (get_required_tier_for_level request.requested_access_level)
       pay_per_view_available := true
       pay_per_view_price := some (calculate_pay_per_view_price st request.content_id) }, st)
  else
    let plan := st.subscription_plans subscription.plan_id
    let limit_hit : Bool :=
      match plan with
      | some p => ! subscription.can_access_more_content p
      | none => false
    if limit_hit then
      let limit_str : String :=
        match plan with
        | some p =>
          match p.content_limit with
          | some n => toString n
          | none => "None"
        | none => "None"
      ({ access_granted := false
         access_level := .public
         denial_reason := some ("Monthly content limit reached (" ++ limit_str ++ " articles)")
         upgrade_required := true
         current_subscription_tier := some subscription.subscription_tier
         required_subscription_tier := some SubscriptionTier.premium
         pay_per_view_available := true
         pay_per_view_price := some (calculate_pay_per_view_price st request.content_id) }, st)
    else
      let s' := { subscription with
        content_accessed_count := subscription.content_accessed_count + 1
        last_access_date := some now
        updated_at := now }
      let st := { st with user_subscriptions := store_put st.user_subscriptions request.user_id s' }
      let issued := generate_access_token st request.user_id request.content_id
        request.requested_access_level 24 none none now fresh_token
      ({ access_granted := true
         access_level := request.requested_access_level
         access_token := some issued.1.token
         expires_at := some issued.1.expires_at
         current_subscription_tier := some s'.subscription_tier }, issued.2)

/-- `AccessControlManager.verify_content_access`: token fast path first (a
stored, valid token for the same content is honoured and marked used, with no
user check), otherwise the subscription path. -/
def verify_content_access (st : MgrState) (request : AccessVerificationRequest)
    (now : ℤ) (fresh_token : String) : AccessVerificationResponse × MgrState :=
  let fast : Option (AccessVerificationResponse × MgrState) :=
    match request.access_token with
    | none => none
    | some token_str =>
      match st.access_tokens token_str with
      | none => none
      | some token =>
        if token.is_valid now && (token.content_id = request.content_id) then
          let token' := token.mark_used now
          some ({ access_granted := true
                  access_level := token.access_level
                  access_token := some token_str
                  expires_at := some token.expires_at
                  current_subscription_tier := none },
            { st with access_tokens := store_put st.access_tokens token_str token' })
        else none
  match fast with
  | some r => r
  | none => verify_subscription_path st request now fresh_token

/-- `AccessControlManager.grant_temporary_access`: payment-token sanity check,
access level from the cached assessment (default premium), grant creation with
`payment_verified := True`, storage, and companion token issuance. -/
def grant_temporary_access (st : MgrState) (user_id content_id : String)
    (duration_seconds : ℕ) (payment_token : String) (amount_paid : ℚ)
    (now : ℤ) (fresh_grant_id fresh_token : String) :
    Option TemporaryAccessGrant × String × MgrState :=
  if payment_token = "" ∨ payment_token.length < 10 then
    (none, "Invalid payment token", st)
  else
    let access_level : AccessLevel :=
      match st.content_assessments content_id with
      | none => .premium
      | some assessment => assessment.recommended_access_level
    let grant := TemporaryAccessGrant.create_grant fresh_grant_id user_id content_id
      access_level duration_seconds payment_token amount_paid now
    let grant := { grant with payment_verified := true }
    let st := { st with temporary_grants := store_put st.temporary_grants fresh_grant_id grant }
    let issued := generate_access_token st user_id content_id access_level
      ((duration_seconds : ℚ) / 3600) (some payment_token) (some amount_paid)
      now fresh_token
    (some grant, "Temporary access granted for " ++ toString duration_seconds ++ " seconds",
      issued.2)

/-- Result dictionary of the MCP tool wrapper
`access_control_tools.grant_temporary_access` (success flag, error message,
and the grant whose fields populate the success payload). -/
structure ToolGrantResult where
  success : Bool
  error : Option String := none
  grant : Option TemporaryAccessGrant := none
deriving DecidableEq, Repr

/-- The MCP tool wrapper `access_control_tools.grant_temporary_access`: rejects
an empty payment token and a non-positive amount, converts
`duration_hours` to whole seconds (`int(duration_hours * 3600)`), and
delegates to the manager. -/
def tool_grant_temporary_access (st : MgrState) (user_id content_id : String)
    (duration_hours : ℚ) (payment_token : String) (amount_paid : ℚ)
    (now : ℤ) (fresh_grant_id fresh_token : String) : ToolGrantResult × MgrState :=
  if payment_token = "" then
    ({ success := false, error := some "Payment token is required for temporary access" }, st)
  else if amount_paid ≤ 0 then
    ({ success := false, error := some "Payment amount must be greater than 0" }, st)
  else
    let duration_seconds : ℕ := (⌊duration_hours * 3600⌋).toNat
    match grant_temporary_access st user_id content_id duration_seconds
        payment_token amount_paid now fresh_grant_id fresh_token with
    | (none, message, st') => ({ success := false, error := some message }, st')
    | (some grant, _, st') => ({ success := true, grant := some grant }, st')

/-! ### Spec-side definitions and concrete inputs used by the theorems -/

/-- Spec-side nesting table (from the specification's words, for comparison
with `has_access_to_level`): free grants only public; premium grants public,
registered, premium; enterprise additionally grants enterprise. -/
def spec_access_table : SubscriptionTier → AccessLevel → Bool
  | .free, .public => true
  | .free, _ => false
  | .premium, .public => true
  | .premium, .registered => true
  | .premium, .premium => true
  | .premium, _ => false
  | .enterprise, .public => true
  | .enterprise, .registered => true
  | .enterprise, .premium => true
  | .enterprise, .enterprise => true
  | .enterprise, .restricted => false

/-- A free-tier subscription record (concrete input). -/
def sub_c2 : UserSubscription :=
  { user_id := "u_free"
    subscription_tier := .free
    plan_id := "plan_free"
    start_date := 0
    created_at := 0
    updated_at := 0 }

/-- A token expiring at time 100 with no usage cap (concrete input). -/
def tok_c3 : AccessToken :=
  { token := "tok_c3"
    user_id := "u1"
    content_id := "c1"
    access_level := .premium
    granted_at := 0
    expires_at := 100
    created_at := 0 }

/-- A payment-verified 3600-second grant created at time 0 (concrete input,
built the way `grant_temporary_access` builds it). -/
def gr_c3 : TemporaryAccessGrant :=
  { TemporaryAccessGrant.create_grant "g1" "u1" "c1" .premium 3600
      "pay_test_token_12345678" (299/100) 0 with payment_verified := true }

/-- Assessment with quality 9.2, demand 8.5, exclusivity 9.0, zero freshness
age and engagement rate 0.015 (concrete input). -/
def assessment_c8 : ContentValueAssessment :=
  { content_id := "c8"
    value_tier := .premium
    quality_score := 92/10
    demand_score := 85/10
    exclusivity_score := 9
    freshness_days := 0
    word_count := 500
    predicted_engagement_rate := 15/1000
    recommended_access_level := .premium
    recommended_price := some (299/100) }

/-- A basic-tier assessment recommending price 0.0 (concrete input). -/
def assessment_c10 : ContentValueAssessment :=
  { content_id := "c0"
    value_tier := .basic
    quality_score := 4
    demand_score := 5
    exclusivity_score := 5
    freshness_days := 10
    word_count := 300
    recommended_access_level := .public
    recommended_price := some 0 }

/-- Manager state caching the zero-price assessment for `"c0"`. -/
def st_c10 : MgrState :=
  { mgr_init with
    content_assessments := store_put mgr_init.content_assessments "c0" assessment_c10 }

/-- Request by a (not yet stored) user for premium access to `"c0"`. -/
def req_c10 : AccessVerificationRequest :=
  { user_id := "u_c10"
    content_id := "c0"
    requested_access_level := .premium
    requesting_interface := "test"
    request_timestamp := 0 }

/-- A valid token bound to user `"alice"` for content `"c9"`. -/
def tok_c9 : AccessToken :=
  { token := "t9"
    user_id := "alice"
    content_id := "c9"
    access_level := .premium
    granted_at := 0
    expires_at := 1000
    created_at := 0 }

/-- Manager state storing `tok_c9` under its token string. -/
def st_c9 : MgrState :=
  { mgr_init with access_tokens := store_put mgr_init.access_tokens "t9" tok_c9 }

/-- A request by a different user (`"mallory"`) presenting alice's token. -/
def req_c9 : AccessVerificationRequest :=
  { user_id := "mallory"
    content_id := "c9"
    requested_access_level := .public
    access_token := some "t9"
    requesting_interface := "test"
    request_timestamp := 5 }

/-- An active premium subscription for `"u_c5"` (concrete input). -/
def sub_c5 : UserSubscription :=
  { user_id := "u_c5"
    subscription_tier := .premium
    plan_id := "plan_premium"
    start_date := 0
    end_date := some 2592000
    renewal_date := some 2592000
    created_at := 0
    updated_at := 0 }

/-- Manager state storing `sub_c5`. -/
def st_c5 : MgrState :=
  { mgr_init with
    user_subscriptions := store_put mgr_init.user_subscriptions "u_c5" sub_c5 }

/-- The state after subscribing `"user_free_001"` to the free plan at time 0. -/
def st_free : MgrState :=
  (create_subscription mgr_init "user_free_001" "plan_free" none 0).2.2

/-- The free subscription record `create_subscription` stores at time 0 for
`"user_free_001"` (spelled out). -/
def sub_free_0 : UserSubscription :=
  { user_id := "user_free_001"
    subscription_tier := .free
    plan_id := "plan_free"
    status := .active
    start_date := 0
    end_date := some 2592000
    renewal_date := some 2592000
    payment_method := none
    auto_renew := true
    created_at := 0
    updated_at := 0 }

/-- A public-level verification request without token (free-tier scenario). -/
def mk_free_request (u : String) (now : ℤ) : AccessVerificationRequest :=
  { user_id := u
    content_id := "article_001"
    requested_access_level := .public
    requesting_interface := "test"
    request_timestamp := now }

/-- Run `verify_content_access` `n` times in sequence for user `u` (fresh token
strings distinct per step), collecting the grant decisions in call order. -/
def iterate_verify (u : String) (now : ℤ) : ℕ → MgrState → List Bool × MgrState
  | 0, st => ([], st)
  | n + 1, st =>
    let r := verify_content_access st (mk_free_request u now) now ("tok_" ++ toString n)
    let rest := iterate_verify u now n r.2
    (r.1.access_granted :: rest.1, rest.2)

/-! ### Theorems -/

theorem store_put_self (m : String → Option α) (k : String) (v : α) :
    store_put m k v k = some v := by
  simp [store_put]

theorem store_put_ne (m : String → Option α) (k : String) (v : α) (x : String)
    (h : x ≠ k) : store_put m k v x = m x := by
  simp [store_put, h]

/-- In the subscription path, every denial carries the pay-per-view price
computed from the original state's assessment cache (materializing a free-tier
subscription does not touch the cache). -/
theorem verify_sub_path_denial_price (st : MgrState)
    (req : AccessVerificationRequest) (now : ℤ) (f : String) :
    (verify_subscription_path st req now f).1.access_granted = false →
    (verify_subscription_path st req now f).1.pay_per_view_price
      = some (calculate_pay_per_view_price st req.content_id) := by
  unfold verify_subscription_path
  rcases hs : st.user_subscriptions req.user_id with _ | s <;>
    simp only [hs] <;>
    split_ifs <;>
    intro h <;>
    first
      | exact rfl
      | exact h.elim

/-- C2: for every subscription and requested level, `has_access_to_level`
agrees with the fixed nesting table (free grants only public; premium grants
public, registered, premium; enterprise additionally grants enterprise), and
the three tiers' allowed-level sets are strictly nested
(free ⊂ premium ⊂ enterprise). -/
theorem C2_has_access_matches_nesting_table :
    (∀ (s : UserSubscription) (l : AccessLevel),
      s.has_access_to_level l = spec_access_table s.subscription_tier l)
    ∧ (∀ l : AccessLevel, l ∈ tier_access_map .free → l ∈ tier_access_map .premium)
    ∧ (∀ l : AccessLevel, l ∈ tier_access_map .premium → l ∈ tier_access_map .enterprise)
    ∧ (∃ l : AccessLevel, l ∈ tier_access_map .premium ∧ l ∉ tier_access_map .free)
    ∧ (∃ l : AccessLevel, l ∈ tier_access_map .enterprise ∧ l ∉ tier_access_map .premium) := by
  refine ⟨?_, ?_, ?_,
    ⟨.registered, by decide, by decide⟩, ⟨.enterprise, by decide, by decide⟩⟩
  · intro s l
    cases h : s.subscription_tier <;> cases l <;>
      simp [UserSubscription.has_access_to_level, h, spec_access_table, tier_access_map]
  · intro l h
    cases l <;> revert h <;> decide
  · intro l h
    cases l <;> revert h <;> decide

/-- Witness for C2 at the free tier and the level `public`. -/
theorem C2_has_access_matches_nesting_table_witness :
    sub_c2.has_access_to_level .enterprise = spec_access_table .free .enterprise
    ∧ AccessLevel.public ∈ tier_access_map .premium :=
  ⟨C2_has_access_matches_nesting_table.1 sub_c2 .enterprise,
    C2_has_access_matches_nesting_table.2.1 .public (by decide)⟩

/-- C3 counterexample: at `now = expires_at` (token `tok_c3` expires at 100 and
has no usage cap) `AccessToken.is_valid` returns `true` although the claimed
condition `now < expires_at` fails — the token check expires strictly after
`expires_at`, not at it. -/
theorem C3_token_validity_counterexample :
    tok_c3.is_valid 100 = true ∧ ¬ ((100 : ℤ) < tok_c3.expires_at) :=
  ⟨by decide, by decide⟩

/-- C3 (amended): an `AccessToken` is valid iff `now ≤ expires_at` and, when
`max_uses` is set, `usage_count < max_uses`; a `TemporaryAccessGrant` is valid
iff `now < expires_at` and `payment_verified`; a payment-verified grant with
`duration_seconds = 3600` and `expires_at = granted_at + 3600` is valid at
`granted_at` and invalid at `granted_at + 3601`. -/
theorem C3_token_grant_validity :
    (∀ (t : AccessToken) (now : ℤ), t.is_valid now = true ↔
      (now ≤ t.expires_at
        ∧ (t.max_uses = none ∨ ∃ m, t.max_uses = some m ∧ t.usage_count < m)))
    ∧ (∀ (g : TemporaryAccessGrant) (now : ℤ), g.is_valid now = true ↔
      (now < g.expires_at ∧ g.payment_verified = true))
    ∧ (∀ g : TemporaryAccessGrant, g.duration_seconds = 3600 →
      g.payment_verified = true → g.expires_at = g.granted_at + 3600 →
      g.is_valid g.granted_at = true ∧ g.is_valid (g.granted_at + 3601) = false) := by
  refine ⟨?_, ?_, ?_⟩
  · intro t now
    constructor
    · intro h
      by_cases hg : now > t.expires_at
      · simp [AccessToken.is_valid, hg] at h
      · refine ⟨not_lt.mp hg, ?_⟩
        rcases hm : t.max_uses with _ | m
        · exact Or.inl rfl
        · by_cases hu : t.usage_count ≥ m
          · simp [AccessToken.is_valid, hg, hm, hu] at h
          · exact Or.inr ⟨m, rfl, not_le.mp hu⟩
    · rintro ⟨hle, hm⟩
      have hg : ¬ now > t.expires_at := not_lt.mpr hle
      rcases hm with hnone | ⟨m, hms, hlt⟩
      · simp [AccessToken.is_valid, hg, hnone]
      · simp [AccessToken.is_valid, hg, hms, not_le.mpr hlt]
  · intro g now
    simp [TemporaryAccessGrant.is_valid, Bool.and_eq_true, decide_eq_true_iff]
  · intro g h36 hpv hexp
    constructor
    · simp only [TemporaryAccessGrant.is_valid, hpv, hexp, Bool.and_true,
        decide_eq_true_iff]
      omega
    · simp only [TemporaryAccessGrant.is_valid, hpv, hexp, Bool.and_true,
        decide_eq_false_iff_not, Bool.and_eq_false_iff, decide_eq_true_iff]
      omega

/-- Witness for C3 at the concrete payment-verified 3600-second grant. -/
theorem C3_token_grant_validity_witness :
    gr_c3.is_valid gr_c3.granted_at = true
    ∧ gr_c3.is_valid (gr_c3.granted_at + 3601) = false :=
  C3_token_grant_validity.2.2 gr_c3 rfl rfl (by decide)

/-- C8 counterexample: on `assessment_c8` (quality 9.2, demand 8.5,
exclusivity 9.0, freshness 0 days, engagement rate 0.015) the method returns
8.2, which is not within ±0.01 of 8.9 — the method computes the five-factor
weighted sum, not the equal-weight mean of the three scores. -/
theorem C8_score_counterexample :
    assessment_c8.calculate_overall_value_score = 41/5
    ∧ ¬ (|assessment_c8.calculate_overall_value_score - 89/10| ≤ 1/100) := by
  have h : assessment_c8.calculate_overall_value_score = 41/5 := by
    unfold ContentValueAssessment.calculate_overall_value_score round2 round_half_even
    norm_num [assessment_c8]
  refine ⟨h, ?_⟩
  rw [h, abs_le]
  norm_num

/-- C8 (amended): `calculate_overall_value_score` is deterministic (equal
assessments give equal scores); on `assessment_c8` (quality 9.2, demand 8.5,
exclusivity 9.0, freshness 0, engagement rate 0.015) the weighted sum
0.30·9.2 + 0.25·8.5 + 0.20·9.0 + 0.15·10 + 0.10·0.15, rounded to two
decimals, is 8.2. -/
theorem C8_score_deterministic_weighted :
    (∀ a b : ContentValueAssessment, a = b →
      a.calculate_overall_value_score = b.calculate_overall_value_score)
    ∧ assessment_c8.calculate_overall_value_score = 41/5 := by
  constructor
  · intro a b h
    rw [h]
  · unfold ContentValueAssessment.calculate_overall_value_score round2 round_half_even
    norm_num [assessment_c8]

/-- Witness for C8's determinism at the concrete assessment. -/
theorem C8_score_deterministic_weighted_witness :
    assessment_c8.calculate_overall_value_score
      = assessment_c8.calculate_overall_value_score :=
  C8_score_deterministic_weighted.1 assessment_c8 assessment_c8 rfl

/-- C9: in the token fast path of `verify_content_access`, a stored valid
token whose `content_id` matches the request is honoured without comparing
user ids — access is granted at the token's bound level even when the
requesting user differs from the token's owner. -/
theorem C9_token_fast_path_ignores_user :
    ∀ (st : MgrState) (req : AccessVerificationRequest) (now : ℤ)
      (f tstr : String) (tok : AccessToken),
      req.access_token = some tstr →
      st.access_tokens tstr = some tok →
      tok.is_valid now = true →
      tok.content_id = req.content_id →
      req.user_id ≠ tok.user_id →
      (verify_content_access st req now f).1.access_granted = true
      ∧ (verify_content_access st req now f).1.access_level = tok.access_level := by
  intro st req now f tstr tok h1 h2 h3 h4 h5
  unfold verify_content_access
  simp [h1, h2, h3, h4]

/-- C4: `create_subscription` returns no subscription and the already-
subscribed error, leaving the store untouched, when the user's stored
subscription is active; otherwise, for a known plan, it stores exactly one
fresh subscription record for that user — status active, auto-renew on, end
date exactly 30 days after the start date — and touches no other user's
entry (the per-user store guarantees at most one record per user id). -/
theorem C4_create_subscription :
    (∀ (st : MgrState) (u pid : String) (pm : Option String) (now : ℤ)
      (plan : SubscriptionPlan) (ex : UserSubscription),
      st.subscription_plans pid = some plan →
      st.user_subscriptions u = some ex →
      ex.is_active now = true →
      create_subscription st u pid pm now
        = (none, "User already has an active subscription: "
            ++ ex.subscription_tier.value, st))
    ∧ (∀ (st : MgrState) (u pid : String) (pm : Option String) (now : ℤ)
      (plan : SubscriptionPlan),
      st.subscription_plans pid = some plan →
      (∀ ex, st.user_subscriptions u = some ex → ex.is_active now = false) →
      ∃ sub, (create_subscription st u pid pm now).1 = some sub
        ∧ sub.status = .active
        ∧ sub.auto_renew = true
        ∧ sub.start_date = now
        ∧ sub.end_date = some (now + 30 * day_seconds)
        ∧ sub.subscription_tier = plan.tier
        ∧ sub.plan_id = pid
        ∧ sub.user_id = u
        ∧ sub.content_accessed_count = 0
        ∧ (create_subscription st u pid pm now).2.2.user_subscriptions u = some sub
        ∧ ∀ v, v ≠ u →
            (create_subscription st u pid pm now).2.2.user_subscriptions v
              = st.user_subscriptions v) := by
  constructor
  · intro st u pid pm now plan ex hp he ha
    unfold create_subscription
    simp [hp, he, ha]
  · intro st u pid pm now plan hp hex
    rcases he : st.user_subscriptions u with _ | ex
    · simp only [create_subscription, hp, he]
      exact ⟨_, rfl, rfl, rfl, rfl, rfl, rfl, rfl, rfl, rfl,
        by simp [store_put], fun v hv => by simp [store_put, hv]⟩
    · have hf := hex ex he
      simp only [create_subscription, hp, he, hf, Bool.false_eq_true, if_false]
      exact ⟨_, rfl, rfl, rfl, rfl, rfl, rfl, rfl, rfl, rfl,
        by simp [store_put], fun v hv => by simp [store_put, hv]⟩

/-- Witness for C4: the already-subscribed error on the active subscription
`sub_c5` stored in `st_c5`. -/
theorem C4_create_subscription_witness :
    create_subscription st_c5 "u_c5" "plan_premium" none 0
      = (none, "User already has an active subscription: "
          ++ sub_c5.subscription_tier.value, st_c5) :=
  C4_create_subscription.1 st_c5 "u_c5" "plan_premium" none 0 plan_premium sub_c5
    rfl (by decide) (by decide)

/-- C5: `cancel_subscription` returns an error and mutates nothing when the
user has no stored subscription or an already-cancelled one; on any other
stored subscription it keeps the record, setting only status (cancelled),
cancellation timestamp, auto-renew (off) and the update timestamp, leaving
tier, plan, usage count and all dates unchanged, and touching no other
user's entry. -/
theorem C5_cancel_subscription :
    (∀ (st : MgrState) (u : String) (now : ℤ),
      st.user_subscriptions u = none →
      cancel_subscription st u now = (false, "No subscription found for user", st))
    ∧ (∀ (st : MgrState) (u : String) (now : ℤ) (s : UserSubscription),
      st.user_subscriptions u = some s → s.status = .cancelled →
      cancel_subscription st u now = (false, "Subscription is already cancelled", st))
    ∧ (∀ (st : MgrState) (u : String) (now : ℤ) (s : UserSubscription),
      st.user_subscriptions u = some s → s.status ≠ .cancelled →
      (cancel_subscription st u now).1 = true
      ∧ (cancel_subscription st u now).2.2.user_subscriptions u
          = some { s with
              status := .cancelled
              cancelled_at := some now
              auto_renew := false
              updated_at := now }
      ∧ ∀ v, v ≠ u →
          (cancel_subscription st u now).2.2.user_subscriptions v
            = st.user_subscriptions v) := by
  refine ⟨?_, ?_, ?_⟩
  · intro st u now h
    unfold cancel_subscription
    simp [h]
  · intro st u now s hs hc
    unfold cancel_subscription
    simp [hs, hc]
  · intro st u now s hs hc
    unfold cancel_subscription
    simp only [hs, hc, if_false]
    exact ⟨trivial, by simp [store_put], fun v hv => by simp [store_put, hv]⟩

/-- Witness for C5: cancelling the active subscription `sub_c5` at time 7. -/
theorem C5_cancel_subscription_witness :
    (cancel_subscription st_c5 "u_c5" 7).1 = true
    ∧ (cancel_subscription st_c5 "u_c5" 7).2.2.user_subscriptions "u_c5"
        = some { sub_c5 with
            status := .cancelled
            cancelled_at := some 7
            auto_renew := false
            updated_at := 7 }
    ∧ ∀ v, v ≠ "u_c5" →
        (cancel_subscription st_c5 "u_c5" 7).2.2.user_subscriptions v
          = st_c5.user_subscriptions v :=
  C5_cancel_subscription.2.2 st_c5 "u_c5" 7 sub_c5 (by decide) (by decide)

/-- C6 counterexample: a tool-level grant call with a valid payment token and
positive amount but duration 360000 seconds (100 hours, outside [60, 86400])
is not rejected — it succeeds and stores the grant, so the claimed duration
validation does not exist on this path. -/
theorem C6_duration_unchecked_counterexample :
    (tool_grant_temporary_access mgr_init "u1" "c1" 100 "pay_test_token_12345678"
      (299/100) 0 "g1" "t1").1.success = true
    ∧ Option.map (fun g => g.duration_seconds)
        ((tool_grant_temporary_access mgr_init "u1" "c1" 100 "pay_test_token_12345678"
          (299/100) 0 "g1" "t1").2.temporary_grants "g1") = some 360000
    ∧ ¬ (360000 ≤ 86400) := by
  refine ⟨?_, ?_, by decide⟩
  · unfold tool_grant_temporary_access grant_temporary_access
    norm_num
    decide
  · unfold tool_grant_temporary_access grant_temporary_access
    norm_num
    decide

/-- C6 (amended): whenever the payment token is empty or shorter than 10
characters, or the paid amount is non-positive, the tool-level grant call
returns a failure and leaves the manager state untouched (no grant, no
companion token); the duration is not validated by this operation. -/
theorem C6_payment_validation :
    ∀ (st : MgrState) (u c : String) (dh : ℚ) (ptok : String) (amt : ℚ)
      (now : ℤ) (gid ftk : String),
      (ptok = "" ∨ ptok.length < 10 ∨ amt ≤ 0) →
      (tool_grant_temporary_access st u c dh ptok amt now gid ftk).1.success = false
      ∧ (tool_grant_temporary_access st u c dh ptok amt now gid ftk).2 = st := by
  intro st u c dh ptok amt now gid ftk h
  unfold tool_grant_temporary_access
  by_cases h1 : ptok = ""
  · simp [h1]
  · by_cases h2 : amt ≤ 0
    · simp [h1, h2]
    · have h3 : ptok.length < 10 := by
        rcases h with h | h | h
        · exact absurd h h1
        · exact h
        · exact absurd h h2
      unfold grant_temporary_access
      simp [h1, h2, h3]

/-- Witness for C6 at a too-short payment token. -/
theorem C6_payment_validation_witness :
    (tool_grant_temporary_access mgr_init "u2" "c2" 1 "short" 3 0 "g2" "t2").1.success
        = false
    ∧ (tool_grant_temporary_access mgr_init "u2" "c2" 1 "short" 3 0 "g2" "t2").2
        = mgr_init :=
  C6_payment_validation mgr_init "u2" "c2" 1 "short" 3 0 "g2" "t2"
    (Or.inr (Or.inl (by decide)))

/-- C7: every successful manager-level temporary grant is payment-verified,
stamped `granted_at = now` and `expires_at = now + duration_seconds`, carries
the cached assessment's recommended access level (premium when no assessment
is cached), is stored under its grant id, and a companion access token bound
to the same user, content and level, expiring at the same moment, is stored
under its token string. -/
theorem C7_grant_success :
    ∀ (st : MgrState) (u c : String) (ds : ℕ) (ptok : String) (amt : ℚ)
      (now : ℤ) (gid ftk : String),
      ¬ (ptok = "" ∨ ptok.length < 10) →
      ∃ g tok,
        (grant_temporary_access st u c ds ptok amt now gid ftk).1 = some g
        ∧ g.payment_verified = true
        ∧ g.granted_at = now
        ∧ g.expires_at = now + (ds : ℤ)
        ∧ (st.content_assessments c = none → g.access_level = .premium)
        ∧ (∀ a, st.content_assessments c = some a →
            g.access_level = a.recommended_access_level)
        ∧ (grant_temporary_access st u c ds ptok amt now gid ftk).2.2.temporary_grants gid
            = some g
        ∧ (grant_temporary_access st u c ds ptok amt now gid ftk).2.2.access_tokens ftk
            = some tok
        ∧ tok.user_id = u
        ∧ tok.content_id = c
        ∧ tok.access_level = g.access_level
        ∧ tok.expires_at = now + (ds : ℤ) := by
  intro st u c ds ptok amt now gid ftk h
  have hds : (⌊((ds : ℚ)) / 3600 * 3600⌋ : ℤ) = (ds : ℤ) := by
    rw [div_mul_cancel₀ _ (by norm_num : (3600 : ℚ) ≠ 0)]
    exact Int.floor_natCast ds
  unfold grant_temporary_access generate_access_token
  rcases ha : st.content_assessments c with _ | a
  · simp only [h, if_false, ha]
    exact ⟨_, _, rfl, rfl, rfl, rfl, fun _ => rfl,
      fun a' h' => Option.noConfusion h',
      store_put_self _ _ _, store_put_self _ _ _, rfl, rfl, rfl,
      by show now + ⌊((ds : ℚ)) / 3600 * 3600⌋ = now + (ds : ℤ); rw [hds]⟩
  · simp only [h, if_false, ha]
    exact ⟨_, _, rfl, rfl, rfl, rfl,
      fun h' => Option.noConfusion h',
      fun a' h' => by injection h' with h2; rw [← h2]; rfl,
      store_put_self _ _ _, store_put_self _ _ _, rfl, rfl, rfl,
      by show now + ⌊((ds : ℚ)) / 3600 * 3600⌋ = now + (ds : ℤ); rw [hds]⟩

/-- Witness for C7: a 3600-second grant on a state with no cached assessment. -/
theorem C7_grant_success_witness :
    ∃ g tok,
      (grant_temporary_access mgr_init "u7" "c7" 3600 "pay_test_token_12345678"
        3 0 "g7" "t7").1 = some g
      ∧ g.payment_verified = true
      ∧ g.granted_at = 0
      ∧ g.expires_at = 0 + ((3600 : ℕ) : ℤ)
      ∧ (mgr_init.content_assessments "c7" = none → g.access_level = .premium)
      ∧ (∀ a, mgr_init.content_assessments "c7" = some a →
          g.access_level = a.recommended_access_level)
      ∧ (grant_temporary_access mgr_init "u7" "c7" 3600 "pay_test_token_12345678"
          3 0 "g7" "t7").2.2.temporary_grants "g7" = some g
      ∧ (grant_temporary_access mgr_init "u7" "c7" 3600 "pay_test_token_12345678"
          3 0 "g7" "t7").2.2.access_tokens "t7" = some tok
      ∧ tok.user_id = "u7"
      ∧ tok.content_id = "c7"
      ∧ tok.access_level = g.access_level
      ∧ tok.expires_at = 0 + ((3600 : ℕ) : ℤ) :=
  C7_grant_success mgr_init "u7" "c7" 3600 "pay_test_token_12345678" 3 0 "g7" "t7"
    (by decide)

/-- C1: for a stored free-plan subscription (plan `plan_free`, content limit
10) that passes the active and tier checks on a token-less request,
verification grants exactly while `content_accessed_count < 10` and then
increments the count by one; once the count has reached 10 it denies with the
monthly-limit reason and leaves the count unchanged, so a count that is at
most 10 stays at most 10.  Concretely, subscribing `"user_free_001"` to the
free plan and issuing 11 public requests grants the first 10 and denies the
11th. -/
theorem C1_free_tier_limit :
    (∀ (st : MgrState) (req : AccessVerificationRequest) (now : ℤ) (f : String)
      (s : UserSubscription),
      st.user_subscriptions req.user_id = some s →
      st.subscription_plans s.plan_id = some plan_free →
      req.access_token = none →
      s.is_active now = true →
      s.has_access_to_level req.requested_access_level = true →
      (s.content_accessed_count < 10 →
        (verify_content_access st req now f).1.access_granted = true
        ∧ (verify_content_access st req now f).2.user_subscriptions req.user_id
            = some { s with
                content_accessed_count := s.content_accessed_count + 1
                last_access_date := some now
                updated_at := now })
      ∧ (10 ≤ s.content_accessed_count →
        (verify_content_access st req now f).1.access_granted = false
        ∧ (verify_content_access st req now f).1.denial_reason
            = some "Monthly content limit reached (10 articles)"
        ∧ (verify_content_access st req now f).2.user_subscriptions req.user_id
            = some s)
      ∧ (s.content_accessed_count ≤ 10 →
        ∀ s', (verify_content_access st req now f).2.user_subscriptions req.user_id
            = some s' → s'.content_accessed_count ≤ 10))
    ∧ (iterate_verify "user_free_001" 0 11 st_free).1
        = List.replicate 10 true ++ [false] := by
  constructor
  · intro st req now f s hs hp ht ha hl
    have hlim : plan_free.content_limit = some 10 := rfl
    unfold verify_content_access verify_subscription_path generate_access_token
    simp only [ht, hs, ha, hl, hp, UserSubscription.can_access_more_content, hlim,
      Bool.not_true, Bool.false_eq_true, if_false]
    refine ⟨?_, ?_, ?_⟩
    · intro hc
      have hd : decide (s.content_accessed_count < 10) = true := decide_eq_true hc
      simp only [hd, Bool.not_true, Bool.false_eq_true, if_false]
      exact ⟨trivial, store_put_self _ _ _⟩
    · intro hc
      have hd : decide (s.content_accessed_count < 10) = false :=
        decide_eq_false (not_lt.mpr hc)
      simp only [hd, Bool.not_false, if_true]
      exact ⟨trivial, by decide, hs⟩
    · intro hc s' hlook
      by_cases hlt : s.content_accessed_count < 10
      · have hd : decide (s.content_accessed_count < 10) = true := decide_eq_true hlt
        simp only [hd, Bool.not_true, Bool.false_eq_true, if_false,
          store_put_self] at hlook
        injection hlook with hlook
        rw [← hlook]
        exact hlt
      · have hd : decide (s.content_accessed_count < 10) = false :=
          decide_eq_false hlt
        simp only [hd, Bool.not_false, if_true] at hlook
        rw [hs] at hlook
        injection hlook with hlook
        rw [← hlook]
        exact hc
  · decide

/-- Witness for C1: the first verification after subscribing
`"user_free_001"` to the free plan is granted and bumps the count to 1. -/
theorem C1_free_tier_limit_witness :
    (verify_content_access st_free (mk_free_request "user_free_001" 0) 0 "w").1.access_granted
      = true
    ∧ (verify_content_access st_free (mk_free_request "user_free_001" 0) 0
        "w").2.user_subscriptions "user_free_001"
        = some { sub_free_0 with
            content_accessed_count := sub_free_0.content_accessed_count + 1
            last_access_date := some 0
            updated_at := 0 } :=
  (C1_free_tier_limit.1 st_free (mk_free_request "user_free_001" 0) 0 "w" sub_free_0
    (by decide) rfl rfl (by decide) (by decide)).1 (by decide)

/-- C10: every denial from `verify_content_access` reports the price computed
by `_calculate_pay_per_view_price` on the request's content, and that lookup
returns the 1.99 default both when no assessment is cached and when the cached
assessment recommends price 0.0 (a zero price is falsy in the lookup, so
basic-tier content is priced like unassessed content). -/
theorem C10_zero_price_defaults :
    (∀ (st : MgrState) (c : String) (a : ContentValueAssessment),
      st.content_assessments c = some a → a.recommended_price = some 0 →
      calculate_pay_per_view_price st c = 199/100)
    ∧ (∀ (st : MgrState) (c : String),
      st.content_assessments c = none →
      calculate_pay_per_view_price st c = 199/100)
    ∧ (∀ (st : MgrState) (req : AccessVerificationRequest) (now : ℤ) (f : String),
      (verify_content_access st req now f).1.access_granted = false →
      (verify_content_access st req now f).1.pay_per_view_price
        = some (calculate_pay_per_view_price st req.content_id)) := by
  refine ⟨?_, ?_, ?_⟩
  · intro st c a ha hp
    unfold calculate_pay_per_view_price
    simp [ha, hp]
  · intro st c h
    unfold calculate_pay_per_view_price
    simp [h]
  · intro st req now f
    unfold verify_content_access
    rcases ht : req.access_token with _ | tstr
    · simp only [ht]
      exact verify_sub_path_denial_price st req now f
    · simp only [ht]
      rcases htok : st.access_tokens tstr with _ | tok
      · simp only [htok]
        exact verify_sub_path_denial_price st req now f
      · simp only [htok]
        by_cases hv : (tok.is_valid now && decide (tok.content_id = req.content_id)) = true
        · rw [if_pos hv]
          intro h
          exact Bool.noConfusion h
        · rw [if_neg hv]
          exact verify_sub_path_denial_price st req now f

/-- Witness for C10: the zero-priced assessment for `"c0"`, an unassessed
content id, and a concrete tier denial. -/
theorem C10_zero_price_defaults_witness :
    calculate_pay_per_view_price st_c10 "c0" = 199/100
    ∧ calculate_pay_per_view_price st_c10 "unseen" = 199/100
    ∧ (verify_content_access st_c10 req_c10 0 "t").1.pay_per_view_price
        = some (calculate_pay_per_view_price st_c10 "c0") :=
  ⟨C10_zero_price_defaults.1 st_c10 "c0" assessment_c10
      (store_put_self mgr_init.content_assessments "c0" assessment_c10) rfl,
    C10_zero_price_defaults.2.1 st_c10 "unseen" rfl,
    C10_zero_price_defaults.2.2 st_c10 req_c10 0 "t" (by decide)⟩

/-- Witness for C9: `"mallory"` redeems a token issued to `"alice"`. -/
theorem C9_token_fast_path_ignores_user_witness :
    (verify_content_access st_c9 req_c9 5 "f").1.access_granted = true
    ∧ (verify_content_access st_c9 req_c9 5 "f").1.access_level = tok_c9.access_level :=
  C9_token_fast_path_ignores_user st_c9 req_c9 5 "f" "t9" tok_c9 rfl (by decide)
    (by decide) rfl (by decide)

end AccessControl
